import Mathlib

/-!
Verification development for the tinyseed seed-node wrapper (src/main.go).

The wrapper wires the tendermint peer-discovery subsystem (Address Book,
PEX reactor, Switch, Transport) together: it builds a p2p configuration,
loads the node identity key, advertises a node-info record, listens on a
transport, constructs the Address Book and the PEX reactor, hands them to
a Switch, installs a shutdown handler and starts the Switch.

We embed the wrapper shallowly: pure values are Lean values, and each
fallible external call (directory creation, key loading, address parsing,
transport listen, switch start) is represented by an oracle field of type
`Except String _` supplied to `Start`.  A Go `panic` on an error from one
of those calls becomes an `Except.error` outcome of the whole `Start`
function, tagged with which call failed.
-/

/-- Configuration record of the wrapper (struct `Config` in main.go). -/
structure Config where
  ListenAddress : String
  ChainID : String
  NodeKeyFile : String
  AddrBookFile : String
  AddrBookStrict : Bool
  MaxNumInboundPeers : Int
  MaxNumOutboundPeers : Int
  Seeds : String
deriving Inhabited, DecidableEq, Repr

/-- Model of Go `filepath.Join` for the two-component joins the wrapper
performs (both components are plain relative/absolute path literals with
no redundant separators, so joining is plain concatenation with one
separator). -/
def filepathJoin (a b : String) : String := a ++ "/" ++ b

/-- `DefaultConfig` from main.go: the seed config initialized with default
values. -/
def DefaultConfig (homeDir : String) : Config :=
  { ListenAddress := "tcp://0.0.0.0:36656"
    ChainID := "columbus-5"
    NodeKeyFile := filepathJoin homeDir "config/node_key.json"
    AddrBookFile := filepathJoin homeDir "data/addrbook.json"
    AddrBookStrict := true
    MaxNumInboundPeers := 1000
    MaxNumOutboundPeers := 1000
    Seeds := "e999fc20aa5b87c1acef8677cf495ad85061cfb9@seed.terra.delightlabs.io:26656,6d8e943c049a80c161a889cb5fcf3d184215023e@public-seed2.terra.dev:26656,87048bf71526fb92d73733ba3ddb79b7a83ca11e@public-seed.terra.dev:26656" }

/-- The environment as read by `main`: the three override variables and the
user home directory returned by `homedir.Dir()`. -/
structure Env where
  id : String
  seeds : String
  listenAddress : String
  userHomeDir : String
deriving Inhabited, DecidableEq, Repr

/-- The configuration value `main` builds and passes to `Start`
(main.go lines 47-69): defaults from `DefaultConfig` on the tinyseed home
directory, each of ChainID/Seeds/ListenAddress overridden by its
environment variable exactly when that variable is non-empty. -/
def mainConfig (e : Env) : Config :=
  let homeDir := filepathJoin e.userHomeDir ".tinyseed"
  let c0 := DefaultConfig homeDir
  let c1 := if e.id ≠ "" then { c0 with ChainID := e.id } else c0
  let c2 := if e.seeds ≠ "" then { c1 with Seeds := e.seeds } else c1
  if e.listenAddress ≠ "" then { c2 with ListenAddress := e.listenAddress } else c2

/-- Drop leading characters belonging to `cutset` (the leading half of Go
`strings.Trim`). -/
def dropWhileMem (cutset : List Char) : List Char → List Char
  | [] => []
  | c :: cs => if c ∈ cutset then dropWhileMem cutset cs else c :: cs

/-- Go `strings.Trim s cutset`: remove all leading and trailing characters
of `s` that belong to `cutset`. -/
def trimChars (cutset : List Char) (s : String) : String :=
  String.mk ((dropWhileMem cutset ((dropWhileMem cutset s.data).reverse)).reverse)

/-- Helper for `splitOnChar`: accumulate the current field (reversed) while
scanning. -/
def splitOnCharAux (sep : Char) : List Char → List Char → List String
  | [], acc => [String.mk acc.reverse]
  | c :: cs, acc =>
    if c = sep then String.mk acc.reverse :: splitOnCharAux sep cs []
    else splitOnCharAux sep cs (c :: acc)

/-- Go `strings.Split s sep` for a one-character separator (the wrapper only
ever splits on a comma). -/
def splitOnChar (sep : Char) (s : String) : List String :=
  splitOnCharAux sep s.data []

/-- tendermint `tmstrings.SplitAndTrim s sep cutset` (specialized to the
one-character separator the wrapper uses): empty input yields the empty
list; otherwise split on `sep` and trim `cutset` from each piece. -/
def SplitAndTrim (s : String) (sep : Char) (cutset : List Char) : List String :=
  if s = "" then []
  else (splitOnChar sep s).map (trimChars cutset)

/-- The fields of tendermint's p2p configuration that the wrapper touches. -/
structure P2PConfig where
  AllowDuplicateIP : Bool
  MaxNumInboundPeers : Int
  MaxNumOutboundPeers : Int
deriving Inhabited, DecidableEq, Repr

/-- tendermint `config.DefaultP2PConfig()` restricted to the fields above:
duplicate IPs disallowed, 40 inbound and 10 outbound peers. -/
def DefaultP2PConfig : P2PConfig :=
  { AllowDuplicateIP := false
    MaxNumInboundPeers := 40
    MaxNumOutboundPeers := 10 }

/-- A loaded node identity key; only its ID is observable to the wrapper. -/
structure NodeKey where
  id : String
deriving Inhabited, DecidableEq, Repr

/-- A parsed combined network address (`p2p.NewNetAddressString` result). -/
structure NetAddress where
  raw : String
deriving Inhabited, DecidableEq, Repr

/-- tendermint `p2p.NewProtocolVersion` triple. -/
structure ProtocolVersion where
  p2p : Nat
  block : Nat
  app : Nat
deriving Inhabited, DecidableEq, Repr

/-- tendermint `version.P2PProtocol`. -/
def P2PProtocol : Nat := 8

/-- tendermint `version.BlockProtocol`. -/
def BlockProtocol : Nat := 11

/-- tendermint `pex.PexChannel` channel byte. -/
def PexChannel : Nat := 0x00

/-- tendermint `p2p.DefaultNodeInfo` as populated by the wrapper. -/
structure DefaultNodeInfo where
  protocolVersion : ProtocolVersion
  defaultNodeID : String
  listenAddr : String
  network : String
  version : String
  channels : List Nat
  moniker : String
deriving Inhabited, DecidableEq, Repr

/-- Possible states of the persisted address-book file at startup. -/
inductive FileState where
  | absent
  | corrupt
  | valid (addrs : List String)
deriving Inhabited, DecidableEq, Repr

/-- Modelled from the spec: the Address Book load path lives in the imported
peer-discovery subsystem, not in this repository's wrapper file.  Per the
spec, loading on startup is best-effort — a missing or corrupt file results
in an empty book, never a fatal error; a valid file yields its stored
addresses. -/
def loadAddrBook : FileState → List String
  | FileState.absent => []
  | FileState.corrupt => []
  | FileState.valid addrs => addrs

/-- The Address Book as the wrapper observes it: its backing file path, its
strict-routability flag fixed at construction, and its loaded addresses. -/
structure AddrBook where
  filePath : String
  strict : Bool
  addrs : List String
deriving Inhabited, DecidableEq, Repr

/-- `pex.NewAddrBook filePath strict` followed by its best-effort load of
the persisted file (see `loadAddrBook`).  Total: no file state makes
construction fail. -/
def NewAddrBook (filePath : String) (strict : Bool) (fs : FileState) : AddrBook :=
  { filePath := filePath, strict := strict, addrs := loadAddrBook fs }

/-- `pex.ReactorConfig` as populated by the wrapper. -/
structure ReactorConfig where
  SeedMode : Bool
  Seeds : List String
deriving Inhabited, DecidableEq, Repr

/-- The Switch as assembled by the wrapper: its p2p config, node key,
address book, named reactors and node info. -/
structure Switch where
  cfg : P2PConfig
  nodeKey : NodeKey
  book : AddrBook
  reactors : List (String × ReactorConfig)
  nodeInfo : DefaultNodeInfo
deriving Inhabited, DecidableEq, Repr

/-- The observable steps of the shutdown handler the wrapper registers with
`tmos.TrapSignal` (main.go lines 167-174), in execution order. -/
inductive ShutdownAction where
  | logShuttingDown
  | saveBook
  | stopSwitch
deriving Inhabited, DecidableEq, Repr

/-- Which fallible external call a Go `panic` in `Start` came from. -/
inductive PanicReason where
  | mkdirNodeKeyDirFailed
  | mkdirAddrBookDirFailed
  | nodeKeyLoadFailed
  | netAddressFailed
  | transportListenFailed
  | switchStartFailed
deriving Inhabited, DecidableEq, Repr

/-- Oracle results for the external, fallible calls `Start` makes, in the
order the source performs them. -/
structure ExternalEffects where
  mkdirNodeKeyDir : Except String Unit
  mkdirAddrBookDir : Except String Unit
  loadOrGenNodeKey : Except String NodeKey
  newNetAddressString : Except String NetAddress
  transportListen : Except String Unit
  switchStart : Except String Unit
deriving Inhabited, Repr

/-- Everything `Start` has built by the time it blocks in `sw.Wait()`. -/
structure StartResult where
  p2pCfg : P2PConfig
  nodeInfo : DefaultNodeInfo
  book : AddrBook
  pexReactor : ReactorConfig
  sw : Switch
  shutdownActions : List ShutdownAction
deriving Inhabited, DecidableEq, Repr

/-- Shallow embedding of `Start` (main.go lines 81-182), following the
source's control flow: make the key/book directories, build the p2p config
(duplicate IPs allowed, caps from the seed config), load the node key,
build the node info (single PEX channel), parse the listen address, listen
on the transport, build the Address Book with the configured strictness,
build the PEX reactor in seed mode with the split-and-trimmed seed list,
assemble the Switch, register the shutdown handler (log, save the book,
stop the switch — in that source order), and start the Switch.  Each Go
`panic` on a failed external call is an `Except.error` tagged with the
failing call. -/
def Start (SeedConfig : Config) (eff : ExternalEffects) (bookFile : FileState) :
    Except PanicReason StartResult :=
  let chainID := SeedConfig.ChainID
  match eff.mkdirNodeKeyDir with
  | Except.error _ => Except.error PanicReason.mkdirNodeKeyDirFailed
  | Except.ok _ =>
    match eff.mkdirAddrBookDir with
    | Except.error _ => Except.error PanicReason.mkdirAddrBookDirFailed
    | Except.ok _ =>
      let cfg0 := DefaultP2PConfig
      let cfg1 := { cfg0 with AllowDuplicateIP := true }
      let cfg2 := { cfg1 with MaxNumInboundPeers := SeedConfig.MaxNumInboundPeers }
      let cfg := { cfg2 with MaxNumOutboundPeers := SeedConfig.MaxNumOutboundPeers }
      match eff.loadOrGenNodeKey with
      | Except.error _ => Except.error PanicReason.nodeKeyLoadFailed
      | Except.ok nodeKey =>
        let protocolVersion : ProtocolVersion :=
          { p2p := P2PProtocol, block := BlockProtocol, app := 0 }
        let nodeInfo : DefaultNodeInfo :=
          { protocolVersion := protocolVersion
            defaultNodeID := nodeKey.id
            listenAddr := SeedConfig.ListenAddress
            network := chainID
            version := "0.5.9"
            channels := [PexChannel]
            moniker := chainID ++ "-seed" }
        match eff.newNetAddressString with
        | Except.error _ => Except.error PanicReason.netAddressFailed
        | Except.ok _addr =>
          match eff.transportListen with
          | Except.error _ => Except.error PanicReason.transportListenFailed
          | Except.ok _ =>
            let book := NewAddrBook SeedConfig.AddrBookFile SeedConfig.AddrBookStrict bookFile
            let pexReactor : ReactorConfig :=
              { SeedMode := true
                Seeds := SplitAndTrim SeedConfig.Seeds ',' [' '] }
            let sw : Switch :=
              { cfg := cfg
                nodeKey := nodeKey
                book := book
                reactors := [("pex", pexReactor)]
                nodeInfo := nodeInfo }
            let shutdownActions :=
              [ShutdownAction.logShuttingDown, ShutdownAction.saveBook,
               ShutdownAction.stopSwitch]
            match eff.switchStart with
            | Except.error _ => Except.error PanicReason.switchStartFailed
            | Except.ok _ =>
              Except.ok
                { p2pCfg := cfg
                  nodeInfo := nodeInfo
                  book := book
                  pexReactor := pexReactor
                  sw := sw
                  shutdownActions := shutdownActions }

/-- A small concrete configuration used by witnesses and counterexamples. -/
def exampleConfig : Config :=
  { ListenAddress := "tcp://0.0.0.0:36656"
    ChainID := "testchain"
    NodeKeyFile := "home/config/node_key.json"
    AddrBookFile := "home/data/addrbook.json"
    AddrBookStrict := true
    MaxNumInboundPeers := 1000
    MaxNumOutboundPeers := 1000
    Seeds := " a@h:1 ,b@h:2 " }

/-- External-call oracles where every call succeeds. -/
def exampleEffects : ExternalEffects :=
  { mkdirNodeKeyDir := Except.ok ()
    mkdirAddrBookDir := Except.ok ()
    loadOrGenNodeKey := Except.ok { id := "aabbcc" }
    newNetAddressString := Except.ok { raw := "aabbcc@0.0.0.0:36656" }
    transportListen := Except.ok ()
    switchStart := Except.ok () }

/-- Oracles where loading the node identity key fails. -/
def keyFailEffects : ExternalEffects :=
  { exampleEffects with loadOrGenNodeKey := Except.error "cannot read key file" }

/-- Oracles where binding the listen address fails. -/
def listenFailEffects : ExternalEffects :=
  { exampleEffects with transportListen := Except.error "address already in use" }

/-- The concrete `StartResult` of the all-successful run on `exampleConfig`
with no persisted address-book file. -/
def exampleResult : StartResult :=
  ((Start exampleConfig exampleEffects FileState.absent).toOption).getD default

/-- The concrete `StartResult` of the all-successful run on `exampleConfig`
with a corrupt persisted address-book file. -/
def exampleResultCorrupt : StartResult :=
  ((Start exampleConfig exampleEffects FileState.corrupt).toOption).getD default


/-- Claim C2: for every configuration passed to Start, the PEX reactor is
constructed with seed mode enabled; seed mode is not configurable off. -/
theorem pex_reactor_always_seed_mode (c : Config) (eff : ExternalEffects)
    (fs : FileState) (r : StartResult) (h : Start c eff fs = Except.ok r) :
    r.pexReactor.SeedMode = true ∧ r.sw.reactors = [("pex", r.pexReactor)] := by
  obtain ⟨m1, m2, nk, na, tl, ss⟩ := eff
  cases m1 <;> cases m2 <;> cases nk <;> cases na <;> cases tl <;> cases ss <;>
    simp only [Start] at h <;>
    first
      | exact Except.noConfusion h
      | (injection h with h2; subst h2; exact ⟨rfl, rfl⟩)

/-- Witness for C2 at a concrete configuration and all-successful oracles. -/
theorem pex_reactor_always_seed_mode_witness :
    exampleResult.pexReactor.SeedMode = true ∧
    exampleResult.sw.reactors = [("pex", exampleResult.pexReactor)] :=
  pex_reactor_always_seed_mode exampleConfig exampleEffects FileState.absent
    exampleResult rfl

/-- Claim C3: for every configuration passed to Start, the p2p configuration
handed to the Switch has AllowDuplicateIP set to true unconditionally. -/
theorem p2p_config_allows_duplicate_ip (c : Config) (eff : ExternalEffects)
    (fs : FileState) (r : StartResult) (h : Start c eff fs = Except.ok r) :
    r.sw.cfg.AllowDuplicateIP = true ∧ r.p2pCfg.AllowDuplicateIP = true := by
  obtain ⟨m1, m2, nk, na, tl, ss⟩ := eff
  cases m1 <;> cases m2 <;> cases nk <;> cases na <;> cases tl <;> cases ss <;>
    simp only [Start] at h <;>
    first
      | exact Except.noConfusion h
      | (injection h with h2; subst h2; exact ⟨rfl, rfl⟩)

/-- Witness for C3 at a concrete configuration and all-successful oracles. -/
theorem p2p_config_allows_duplicate_ip_witness :
    exampleResult.sw.cfg.AllowDuplicateIP = true ∧
    exampleResult.p2pCfg.AllowDuplicateIP = true :=
  p2p_config_allows_duplicate_ip exampleConfig exampleEffects FileState.absent
    exampleResult rfl

/-- Claim C4: the Address Book is created with the configuration's
AddrBookStrict flag, and the book Start ends up with (including the one
handed to the Switch) still carries exactly that flag — the routability
mode is consumed once at construction and never modified. -/
theorem addr_book_strict_from_config (c : Config) (eff : ExternalEffects)
    (fs : FileState) (r : StartResult) (h : Start c eff fs = Except.ok r) :
    r.book = NewAddrBook c.AddrBookFile c.AddrBookStrict fs ∧
    r.sw.book = r.book ∧ r.book.strict = c.AddrBookStrict := by
  obtain ⟨m1, m2, nk, na, tl, ss⟩ := eff
  cases m1 <;> cases m2 <;> cases nk <;> cases na <;> cases tl <;> cases ss <;>
    simp only [Start] at h <;>
    first
      | exact Except.noConfusion h
      | (injection h with h2; subst h2; exact ⟨rfl, rfl, rfl⟩)

/-- Witness for C4 at a concrete configuration and all-successful oracles. -/
theorem addr_book_strict_from_config_witness :
    exampleResult.book =
      NewAddrBook exampleConfig.AddrBookFile exampleConfig.AddrBookStrict
        FileState.absent ∧
    exampleResult.sw.book = exampleResult.book ∧
    exampleResult.book.strict = exampleConfig.AddrBookStrict :=
  addr_book_strict_from_config exampleConfig exampleEffects FileState.absent
    exampleResult rfl

/-- Claim C5: the Switch receives independent concurrency ceilings equal to
the configuration's MaxNumInboundPeers and MaxNumOutboundPeers. -/
theorem switch_caps_from_config (c : Config) (eff : ExternalEffects)
    (fs : FileState) (r : StartResult) (h : Start c eff fs = Except.ok r) :
    r.sw.cfg.MaxNumInboundPeers = c.MaxNumInboundPeers ∧
    r.sw.cfg.MaxNumOutboundPeers = c.MaxNumOutboundPeers := by
  obtain ⟨m1, m2, nk, na, tl, ss⟩ := eff
  cases m1 <;> cases m2 <;> cases nk <;> cases na <;> cases tl <;> cases ss <;>
    simp only [Start] at h <;>
    first
      | exact Except.noConfusion h
      | (injection h with h2; subst h2; exact ⟨rfl, rfl⟩)

/-- Witness for C5 at a concrete configuration and all-successful oracles. -/
theorem switch_caps_from_config_witness :
    exampleResult.sw.cfg.MaxNumInboundPeers = exampleConfig.MaxNumInboundPeers ∧
    exampleResult.sw.cfg.MaxNumOutboundPeers = exampleConfig.MaxNumOutboundPeers :=
  switch_caps_from_config exampleConfig exampleEffects FileState.absent
    exampleResult rfl

/-- Claim C6: the bootstrap seed list given to the PEX reactor is exactly the
configuration's Seeds string split on commas with surrounding spaces trimmed
from each entry (tendermint SplitAndTrim with separator a comma and cutset a
space). -/
theorem pex_seeds_split_and_trimmed (c : Config) (eff : ExternalEffects)
    (fs : FileState) (r : StartResult) (h : Start c eff fs = Except.ok r) :
    r.pexReactor.Seeds = SplitAndTrim c.Seeds ',' [' '] := by
  obtain ⟨m1, m2, nk, na, tl, ss⟩ := eff
  cases m1 <;> cases m2 <;> cases nk <;> cases na <;> cases tl <;> cases ss <;>
    simp only [Start] at h <;>
    first
      | exact Except.noConfusion h
      | (injection h with h2; subst h2; exact rfl)

/-- Witness for C6: on a concrete seeds string, the reactor's seed list is
the comma-split, space-trimmed entry list. -/
theorem pex_seeds_split_and_trimmed_witness :
    exampleResult.pexReactor.Seeds = SplitAndTrim " a@h:1 ,b@h:2 " ',' [' '] ∧
    SplitAndTrim " a@h:1 ,b@h:2 " ',' [' '] = ["a@h:1", "b@h:2"] :=
  ⟨pex_seeds_split_and_trimmed exampleConfig exampleEffects FileState.absent
      exampleResult rfl, rfl⟩

/-- Claim C8: the node info advertised to peers lists exactly one protocol
channel, the PEX channel. -/
theorem node_info_single_pex_channel (c : Config) (eff : ExternalEffects)
    (fs : FileState) (r : StartResult) (h : Start c eff fs = Except.ok r) :
    r.nodeInfo.channels = [PexChannel] ∧
    r.sw.nodeInfo.channels = [PexChannel] ∧
    r.nodeInfo.channels.length = 1 := by
  obtain ⟨m1, m2, nk, na, tl, ss⟩ := eff
  cases m1 <;> cases m2 <;> cases nk <;> cases na <;> cases tl <;> cases ss <;>
    simp only [Start] at h <;>
    first
      | exact Except.noConfusion h
      | (injection h with h2; subst h2; exact ⟨rfl, rfl, rfl⟩)

/-- Witness for C8 at a concrete configuration and all-successful oracles. -/
theorem node_info_single_pex_channel_witness :
    exampleResult.nodeInfo.channels = [PexChannel] ∧
    exampleResult.sw.nodeInfo.channels = [PexChannel] ∧
    exampleResult.nodeInfo.channels.length = 1 :=
  node_info_single_pex_channel exampleConfig exampleEffects FileState.absent
    exampleResult rfl

/-- Claim C1 as stated is false of the source: in the registered shutdown
handler the Switch stop does NOT precede the Address Book flush.  At a
concrete configuration with all-successful oracles, the handler's action
sequence is log, save the book, stop the switch — so the position of the
switch stop is not before the position of the book save. -/
theorem shutdown_stop_before_save_false :
    (Start exampleConfig exampleEffects FileState.absent).toOption.map
        (fun r => r.shutdownActions) =
      some [ShutdownAction.logShuttingDown, ShutdownAction.saveBook,
            ShutdownAction.stopSwitch] ∧
    ¬ ([ShutdownAction.logShuttingDown, ShutdownAction.saveBook,
        ShutdownAction.stopSwitch].indexOf ShutdownAction.stopSwitch <
       [ShutdownAction.logShuttingDown, ShutdownAction.saveBook,
        ShutdownAction.stopSwitch].indexOf ShutdownAction.saveBook) :=
  ⟨rfl, by decide⟩

/-- Claim C1 amended: on receipt of the stop signal, the shutdown handler
first flushes the Address Book to persistent storage and only then stops
the Switch (cancelling the accept loop, the crawl loop and all connection
workers) — the save precedes the stop, the reverse of the claimed order. -/
theorem shutdown_saves_book_then_stops_switch (c : Config)
    (eff : ExternalEffects) (fs : FileState) (r : StartResult)
    (h : Start c eff fs = Except.ok r) :
    r.shutdownActions =
      [ShutdownAction.logShuttingDown, ShutdownAction.saveBook,
       ShutdownAction.stopSwitch] ∧
    [ShutdownAction.logShuttingDown, ShutdownAction.saveBook,
     ShutdownAction.stopSwitch].indexOf ShutdownAction.saveBook <
      [ShutdownAction.logShuttingDown, ShutdownAction.saveBook,
       ShutdownAction.stopSwitch].indexOf ShutdownAction.stopSwitch := by
  obtain ⟨m1, m2, nk, na, tl, ss⟩ := eff
  cases m1 <;> cases m2 <;> cases nk <;> cases na <;> cases tl <;> cases ss <;>
    simp only [Start] at h <;>
    first
      | exact Except.noConfusion h
      | (injection h with h2; subst h2; exact ⟨rfl, by decide⟩)

/-- Witness for the amended C1 at a concrete configuration. -/
theorem shutdown_saves_book_then_stops_switch_witness :
    exampleResult.shutdownActions =
      [ShutdownAction.logShuttingDown, ShutdownAction.saveBook,
       ShutdownAction.stopSwitch] ∧
    [ShutdownAction.logShuttingDown, ShutdownAction.saveBook,
     ShutdownAction.stopSwitch].indexOf ShutdownAction.saveBook <
      [ShutdownAction.logShuttingDown, ShutdownAction.saveBook,
       ShutdownAction.stopSwitch].indexOf ShutdownAction.stopSwitch :=
  shutdown_saves_book_then_stops_switch exampleConfig exampleEffects
    FileState.absent exampleResult rfl

/-- Claim C7: startup-time configuration failures are fatal — when the
directories were created, a failure to load the node identity key makes
Start stop with the key-load panic, and (key loaded, address parsed) a
failure to bind the listen address makes Start stop with the listen
panic. -/
theorem startup_failures_fatal (c : Config) (eff : ExternalEffects)
    (fs : FileState) (hm1 : eff.mkdirNodeKeyDir = Except.ok ())
    (hm2 : eff.mkdirAddrBookDir = Except.ok ()) :
    (∀ e, eff.loadOrGenNodeKey = Except.error e →
      Start c eff fs = Except.error PanicReason.nodeKeyLoadFailed) ∧
    (∀ k a, eff.loadOrGenNodeKey = Except.ok k →
      eff.newNetAddressString = Except.ok a →
      ∀ e, eff.transportListen = Except.error e →
        Start c eff fs = Except.error PanicReason.transportListenFailed) := by
  refine ⟨fun e he => ?_, fun k a hk ha e he => ?_⟩
  · simp [Start, hm1, hm2, he]
  · simp [Start, hm1, hm2, hk, ha, he]

/-- Witness for C7: concrete oracles where the key load (resp. the listen
bind) fails make Start stop with the corresponding panic. -/
theorem startup_failures_fatal_witness :
    Start exampleConfig keyFailEffects FileState.absent =
      Except.error PanicReason.nodeKeyLoadFailed ∧
    Start exampleConfig listenFailEffects FileState.absent =
      Except.error PanicReason.transportListenFailed :=
  ⟨(startup_failures_fatal exampleConfig keyFailEffects FileState.absent rfl
      rfl).1 "cannot read key file" rfl,
   (startup_failures_fatal exampleConfig listenFailEffects FileState.absent rfl
      rfl).2 { id := "aabbcc" } { raw := "aabbcc@0.0.0.0:36656" } rfl rfl
      "address already in use" rfl⟩

/-- Claim C9: constructing the Address Book is best-effort — whether Start
stops with a panic never depends on the state of the persisted book file,
and on a successful run with the file absent or corrupt the book starts
empty. -/
theorem addr_book_load_best_effort :
    (∀ (c : Config) (eff : ExternalEffects) (fs : FileState) (p : PanicReason),
        Start c eff fs = Except.error p →
          ∀ fs2, Start c eff fs2 = Except.error p) ∧
    (∀ (c : Config) (eff : ExternalEffects) (r : StartResult),
        Start c eff FileState.absent = Except.ok r → r.book.addrs = []) ∧
    (∀ (c : Config) (eff : ExternalEffects) (r : StartResult),
        Start c eff FileState.corrupt = Except.ok r → r.book.addrs = []) := by
  refine ⟨?_, ?_, ?_⟩
  · intro c eff fs p h fs2
    obtain ⟨m1, m2, nk, na, tl, ss⟩ := eff
    cases m1 <;> cases m2 <;> cases nk <;> cases na <;> cases tl <;> cases ss <;>
      simp_all [Start]
  · intro c eff r h
    obtain ⟨m1, m2, nk, na, tl, ss⟩ := eff
    cases m1 <;> cases m2 <;> cases nk <;> cases na <;> cases tl <;> cases ss <;>
      simp only [Start] at h <;>
      first
        | exact Except.noConfusion h
        | (injection h with h2; subst h2; exact rfl)
  · intro c eff r h
    obtain ⟨m1, m2, nk, na, tl, ss⟩ := eff
    cases m1 <;> cases m2 <;> cases nk <;> cases na <;> cases tl <;> cases ss <;>
      simp only [Start] at h <;>
      first
        | exact Except.noConfusion h
        | (injection h with h2; subst h2; exact rfl)

/-- Witness for C9: a run that fails does so for the same reason whatever
the book file's state, and a successful run over a corrupt book file
yields an empty book. -/
theorem addr_book_load_best_effort_witness :
    Start exampleConfig keyFailEffects FileState.corrupt =
      Except.error PanicReason.nodeKeyLoadFailed ∧
    exampleResultCorrupt.book.addrs = [] :=
  ⟨addr_book_load_best_effort.1 exampleConfig keyFailEffects FileState.absent
      PanicReason.nodeKeyLoadFailed rfl FileState.corrupt,
   addr_book_load_best_effort.2.2 exampleConfig exampleEffects
      exampleResultCorrupt rfl⟩

/-- Claim C10: for every environment, main hands Start a configuration whose
ChainID/Seeds/ListenAddress are the respective environment variables when
non-empty and the defaults otherwise (an empty variable never overrides a
default), while every remaining field keeps its DefaultConfig value for the
tinyseed home directory. -/
theorem main_config_env_overrides (e : Env) :
    (mainConfig e).ChainID = (if e.id ≠ "" then e.id else "columbus-5") ∧
    (mainConfig e).Seeds =
      (if e.seeds ≠ "" then e.seeds
       else (DefaultConfig (filepathJoin e.userHomeDir ".tinyseed")).Seeds) ∧
    (mainConfig e).ListenAddress =
      (if e.listenAddress ≠ "" then e.listenAddress else "tcp://0.0.0.0:36656") ∧
    (mainConfig e).AddrBookStrict = true ∧
    (mainConfig e).MaxNumInboundPeers = 1000 ∧
    (mainConfig e).MaxNumOutboundPeers = 1000 ∧
    (mainConfig e).NodeKeyFile =
      (DefaultConfig (filepathJoin e.userHomeDir ".tinyseed")).NodeKeyFile ∧
    (mainConfig e).AddrBookFile =
      (DefaultConfig (filepathJoin e.userHomeDir ".tinyseed")).AddrBookFile ∧
    (SplitAndTrim (DefaultConfig (filepathJoin e.userHomeDir ".tinyseed")).Seeds
        ',' [' ']).length = 3 := by
  have hlen : (SplitAndTrim
      (DefaultConfig (filepathJoin e.userHomeDir ".tinyseed")).Seeds
      ',' [' ']).length = 3 := rfl
  refine ⟨?_, ?_, ?_, ?_, ?_, ?_, ?_, ?_, hlen⟩ <;>
    (by_cases h1 : e.id = "" <;> by_cases h2 : e.seeds = "" <;>
      by_cases h3 : e.listenAddress = "" <;>
      simp [mainConfig, DefaultConfig, h1, h2, h3])
